import Mathlib

/-!
Shallow embedding of the PPL mental-wellness backend (request handlers,
validators and their data model), with theorems checking the
natural-language specification against the code.

Sources embedded:
* `backend/utils/helpers.js` — shared validators (`validatePassword`,
  `validateEmail`, `validateName`).
* `routes/profile.js` — profile GET/PUT/DELETE handlers and the local
  strict password validator.
Routes whose source file is absent from the snapshot (auth, curhat,
dashboard, history, history-detail, feedback, forgot-password) are
modelled from the specification, as marked in their doc comments.
-/

namespace PPL

/-- Result record returned by the JS validators: `{ isValid, message }`. -/
structure ValidationResult where
  isValid : Bool
  message : String
deriving Repr, DecidableEq

/-- `backend/utils/helpers.js` `validatePassword`: accepts any password of
length at least 6, with a fixed failure message. -/
def validatePassword (password : String) : ValidationResult :=
  { isValid := decide (6 ≤ password.length)
    message := "Password must be at least 6 characters long" }

/-- JS regex class `[a-zA-Z]` membership for one character. -/
def isLetter (c : Char) : Bool :=
  (('a' ≤ c) && (c ≤ 'z')) || (('A' ≤ c) && (c ≤ 'Z'))

/-- JS regex class `\d` (i.e. `[0-9]`) membership for one character. -/
def isDigitCh (c : Char) : Bool :=
  ('0' ≤ c) && (c ≤ '9')

/-- JS regex class of symbols used by the strict password rule in
`routes/profile.js`: `[!@#$%^&*(),.?":\x7b\x7d|<>]`.  The double quote and
the two braces are written via their code points. -/
def isSymbolCh (c : Char) : Bool :=
  c == '!' || c == '@' || c == '#' || c == '$' || c == '%' || c == '^' ||
  c == '&' || c == '*' || c == '(' || c == ')' || c == ',' || c == '.' ||
  c == '?' || c == Char.ofNat 34 || c == ':' || c == Char.ofNat 123 ||
  c == Char.ofNat 125 || c == '|' || c == '<' || c == '>'

/-- The strict password rule stated by the spec for registration
(at least 8 characters, containing a letter, a digit and a symbol).
This is also exactly the local `validatePassword` rule of
`routes/profile.js` (lines 154-167). -/
def strongPassword (password : String) : Bool :=
  decide (8 ≤ password.length) &&
  password.toList.any isLetter &&
  password.toList.any isDigitCh &&
  password.toList.any isSymbolCh

/-- Local `validatePassword` of `routes/profile.js` (lines 154-167):
rejects when length < 8 or some of letter/digit/symbol is missing. -/
def validatePasswordStrict (password : String) : ValidationResult :=
  let hasLetter := password.toList.any isLetter
  let hasNumber := password.toList.any isDigitCh
  let hasSymbol := password.toList.any isSymbolCh
  if password.length < 8 || !(hasLetter && hasNumber && hasSymbol) then
    { isValid := false
      message := "Password must be at least 8 characters long and include a mix of letters, numbers, and symbols." }
  else
    { isValid := true, message := "" }

/-! ## bcrypt model

`bcrypt.hash`/`bcrypt.compare` are external primitives (out of scope per
the spec).  They are modelled by a tagged injective hash: `compare p h`
succeeds exactly when `h` is the hash of `p`. -/

/-- Model of `bcrypt.hash` (injective, deterministic). -/
def bhash (password : String) : String :=
  "bcrypt$" ++ password

/-- Model of `bcrypt.compare plaintext storedHash`. -/
def bcompare (password storedHash : String) : Bool :=
  bhash password == storedHash

/-! ## Profile routes (`routes/profile.js`, present in the snapshot) -/

/-- A row of the `users` table as the profile routes see it. -/
structure UserRow where
  user_id : String
  name : String
  email : String
  password : String
deriving Repr, DecidableEq

/-- A row of the `history` table (fields the profile/history routes use). -/
structure HistoryRow where
  history_id : String
  user_id : String
  stress_level : String
  stress_percent : Nat
  emotion : String
  text : String
  feedback : String
  video_link : String
  created_at : String
deriving Repr, DecidableEq

/-- The externally managed database state seen by the profile routes,
together with failure flags for the two delete statements (the store is
an external collaborator; a flag set means that statement errors). -/
structure ProfileDb where
  users : List UserRow
  history : List HistoryRow
  historyDeleteFails : Bool
  userDeleteFails : Bool
deriving Repr, DecidableEq

/-- An HTTP response of the profile routes: status plus the `error` or
`message` string of the JSON body. -/
structure SimpleResponse where
  status : Nat
  error : Option String
  message : Option String
deriving Repr, DecidableEq

/-- `DELETE /api/profile` (`routes/profile.js` lines 110-152): fetch the
user row; 404 when absent; delete the user's history rows (500 and stop on
error); then delete the user row (500 on error); 200 on success.
Returns the response together with the database state afterwards. -/
def deleteProfile (db : ProfileDb) (uid : String) : SimpleResponse × ProfileDb :=
  match db.users.find? (fun u => u.user_id == uid) with
  | none =>
      ({ status := 404, error := some "User not found", message := none }, db)
  | some _ =>
      if db.historyDeleteFails then
        ({ status := 500, error := some "Failed to delete history data", message := none }, db)
      else
        let db1 : ProfileDb := { db with history := db.history.filter (fun h => !(h.user_id == uid)) }
        if db.userDeleteFails then
          ({ status := 500, error := some "Failed to delete user account", message := none }, db1)
        else
          ({ status := 200, error := none, message := some "Account deleted successfully" },
           { db1 with users := db1.users.filter (fun u => !(u.user_id == uid)) })

/-- Request body of `PUT /api/profile`: optional name and the optional
password-change pair (absent fields modelled as `none`, as only presence
is branched on). -/
structure PutProfileBody where
  name : Option String
  currentPassword : Option String
  newPassword : Option String
deriving Repr, DecidableEq

/-- `PUT /api/profile` (`routes/profile.js` lines 40-107), given the
stored password hash of the fetched user row (`none` when the fetch
fails, yielding 404).  When both password fields are present: verify the
current password, then the strict strength rule, then reject a new
password equal to the current one (via hash comparison), else update. -/
def putProfile (storedHash : Option String) (body : PutProfileBody) : SimpleResponse :=
  match storedHash with
  | none => { status := 404, error := some "User not found", message := none }
  | some hash =>
      match body.newPassword, body.currentPassword with
      | some newPw, some curPw =>
          if !(bcompare curPw hash) then
            { status := 400, error := some "Invalid current password", message := none }
          else if !(validatePasswordStrict newPw).isValid then
            { status := 400, error := some (validatePasswordStrict newPw).message, message := none }
          else if bcompare newPw hash then
            { status := 400
              error := some "New password cannot be the same as the current password"
              message := none }
          else
            { status := 200, error := none, message := some "User profile updated successfully" }
      | _, _ =>
          { status := 200, error := none, message := some "User profile updated successfully" }

/-! ## Forgot-password routes

The source file `routes/forgotPassword.js` is absent from the snapshot;
only its test suite is present.  The three handlers are modelled from the
spec (section 4.3): every outcome, success or failure, is returned with
HTTP 200 and distinguished only by the body text; the body strings are
those pinned by the repository's tests. -/

/-- A response whose body is reduced to its distinguishing string (the
plain-text error or the JSON `message`). -/
structure TextResponse where
  status : Nat
  body : String
deriving Repr, DecidableEq

/-- Inputs to `POST /forgot-password/request`: the optional `email`
field, the user-lookup outcome, and whether the code insert errors. -/
structure ForgotRequestInput where
  email : Option String
  userFound : Bool
  insertFails : Bool
deriving Repr, DecidableEq

/-- Modelled from the spec: `POST /forgot-password/request` of the
missing `routes/forgotPassword.js` — look up the user by email, generate
and store a code, email it; every outcome is HTTP 200. -/
def forgotRequest (i : ForgotRequestInput) : TextResponse :=
  match i.email with
  | none => { status := 200, body := "Email is required" }
  | some _ =>
      if !i.userFound then
        { status := 200, body := "Email not found" }
      else if i.insertFails then
        { status := 200, body := "Failed to send code" }
      else
        { status := 200, body := "Verification code sent" }

/-- Inputs to `POST /forgot-password/verify`: presence of `email` and
`code`, and whether a matching, unused, non-expired code row is found. -/
structure ForgotVerifyInput where
  email : Option String
  code : Option String
  codeFound : Bool
deriving Repr, DecidableEq

/-- Modelled from the spec: `POST /forgot-password/verify` of the missing
`routes/forgotPassword.js` — look up a matching non-expired unused code
for the email and mark it used; every outcome is HTTP 200. -/
def forgotVerify (i : ForgotVerifyInput) : TextResponse :=
  match i.email, i.code with
  | some _, some _ =>
      if !i.codeFound then
        { status := 200, body := "Invalid or expired code" }
      else
        { status := 200, body := "Code verified" }
  | _, _ => { status := 200, body := "Email and code are required" }

/-- Inputs to `POST /forgot-password/reset`: optional `email` and
`newPassword` fields, the stored hash of the looked-up user (`none` when
the lookup fails), and whether the password update errors. -/
structure ForgotResetInput where
  email : Option String
  newPassword : Option String
  storedHash : Option String
  updateFails : Bool
deriving Repr, DecidableEq

/-- Modelled from the spec: `POST /forgot-password/reset` of the missing
`routes/forgotPassword.js` — re-validate strength and non-reuse against
the stored hash, then hash and update; every outcome is HTTP 200. -/
def forgotReset (i : ForgotResetInput) : TextResponse :=
  match i.email, i.newPassword with
  | some _, some newPw =>
      match i.storedHash with
      | none => { status := 200, body := "User not found" }
      | some hash =>
          if !(validatePasswordStrict newPw).isValid then
            { status := 200, body := (validatePasswordStrict newPw).message }
          else if bcompare newPw hash then
            { status := 200, body := "New password cannot be the same as the current password" }
          else if i.updateFails then
            { status := 200, body := "Failed to reset password" }
          else
            { status := 200, body := "Password reset successfully" }
  | _, _ => { status := 200, body := "Email and new password are required" }

/-! ## Curhat route

The source file `routes/curhat.js` is absent from the snapshot; only its
test suite is present.  The handler is modelled from the spec (section
4.4), with statuses, body strings and fallbacks pinned by the tests. -/

/-- The ML service's JSON payload as consumed by the handler, each
sub-field optional (fallbacks apply to absent ones). -/
structure MlData where
  stressLabel : Option String
  emotionLabel : Option String
  stressLevel : Option Nat
  analysis : Option String
  videos : List (String × String)
deriving Repr, DecidableEq

/-- Outcome of the single `axios.post` call to the ML endpoint. -/
inductive MlOutcome where
  /-- The call resolved with an HTTP status and a (possibly null) body. -/
  | resolved (status : Nat) (data : Option MlData)
  /-- Transport-level abort (`ECONNABORTED`, the bounded timeout). -/
  | timeoutErr
  /-- DNS/connection failure (`ENOTFOUND`/`ECONNREFUSED`). -/
  | connErr
  /-- Other transport error carrying an upstream response. -/
  | respErr (status : Nat)
  /-- Fully generic failure. -/
  | genericErr
deriving Repr, DecidableEq

/-- The analysis result after fallback defaults are applied. -/
structure CurhatResult where
  stressLabel : Option String
  emotionLabel : String
  stressLevel : Nat
  analysis : String
  videos : List (String × String)
deriving Repr, DecidableEq

/-- Modelled from the spec: fallback defaults of the missing
`routes/curhat.js` — emotion "neutral", stress value 50, fixed default
analysis string. -/
def applyFallbacks (d : MlData) : CurhatResult :=
  { stressLabel := d.stressLabel
    emotionLabel := d.emotionLabel.getD "neutral"
    stressLevel := d.stressLevel.getD 50
    analysis := d.analysis.getD "Your text has been analyzed successfully."
    videos := d.videos }

/-- Response of `POST /curhat`: status, error fields, the analysis
result, and the best-effort persistence flags. -/
structure CurhatResponse where
  status : Nat
  error : Option String
  errorType : Option String
  upstreamStatus : Option Nat
  result : Option CurhatResult
  savedToHistory : Option Bool
  historyId : Option String
deriving Repr, DecidableEq

/-- Modelled from the spec: `POST /curhat` of the missing
`routes/curhat.js`.  Validates text presence and minimum length 10
before any ML call; maps ML outcomes to 500/408/503/500/500; on success
applies fallbacks, then, only when a user id was supplied, attempts the
best-effort history insert whose failure is reported solely via
`saved_to_history: false`.  The returned Bool records whether the ML
service was called. -/
def curhat (text : Option String) (userId : Option String)
    (ml : MlOutcome) (insertFails : Bool) (newHistoryId : String) :
    CurhatResponse × Bool :=
  match text with
  | none =>
      ({ status := 400, error := some "Text is required", errorType := none,
         upstreamStatus := none, result := none, savedToHistory := none,
         historyId := none }, false)
  | some t =>
      if t.length < 10 then
        ({ status := 400, error := some "Text must be at least 10 characters long",
           errorType := none, upstreamStatus := none, result := none,
           savedToHistory := none, historyId := none }, false)
      else
        match ml with
        | .resolved st data =>
            if st != 200 then
              ({ status := 500, error := some "ML API returned an error",
                 errorType := none, upstreamStatus := some st, result := none,
                 savedToHistory := none, historyId := none }, true)
            else
              match data with
              | none =>
                  ({ status := 500, error := some "Invalid response format from ML API",
                     errorType := none, upstreamStatus := none, result := none,
                     savedToHistory := none, historyId := none }, true)
              | some d =>
                  let r := applyFallbacks d
                  match userId with
                  | none =>
                      ({ status := 200, error := none, errorType := none,
                         upstreamStatus := none, result := some r,
                         savedToHistory := some false, historyId := none }, true)
                  | some _ =>
                      if insertFails then
                        ({ status := 200, error := none, errorType := none,
                           upstreamStatus := none, result := some r,
                           savedToHistory := some false, historyId := none }, true)
                      else
                        ({ status := 200, error := none, errorType := none,
                           upstreamStatus := none, result := some r,
                           savedToHistory := some true,
                           historyId := some newHistoryId }, true)
        | .timeoutErr =>
            ({ status := 408, error := some "ML API request timed out. Please try again.",
               errorType := some "timeout", upstreamStatus := none, result := none,
               savedToHistory := none, historyId := none }, true)
        | .connErr =>
            ({ status := 503, error := some "Cannot connect to ML API",
               errorType := some "connection_error", upstreamStatus := none,
               result := none, savedToHistory := none, historyId := none }, true)
        | .respErr st =>
            ({ status := 500, error := some "ML API returned an error",
               errorType := some "ml_api_error", upstreamStatus := some st,
               result := none, savedToHistory := none, historyId := none }, true)
        | .genericErr =>
            ({ status := 500, error := some "Failed to process text with ML API",
               errorType := some "generic_error", upstreamStatus := none,
               result := none, savedToHistory := none, historyId := none }, true)

/-! ## Dashboard summary route

The source file `routes/dashboard.js` is absent from the snapshot; only
its test suite is present.  The aggregation is modelled from the spec
(section 4.6), with the shape of the empty-history response pinned by the
tests. -/

/-- A history row as the dashboard summary consumes it
(`stress_percent` may be missing/non-numeric, modelled as `none`;
`created_at` is an epoch-millisecond timestamp). -/
structure DashRow where
  stress_percent : Option Nat
  emotion : String
  created_at : Nat
  text : String
  feedback : String
deriving Repr, DecidableEq

/-- Splits off everything after the first occurrence of `marker`
(substring search, as the JS suggestion-extraction regex does). -/
def afterMarker (marker s : String) : Option String :=
  match s.splitOn marker with
  | _ :: r :: rest => some (String.intercalate marker (r :: rest))
  | _ => none

/-- Modelled from the spec: tip extraction of the missing
`routes/dashboard.js` — scan a feedback text for a
"Suggestion(s): ..." pattern and return the suggestion text. -/
def extractTip (fb : String) : Option String :=
  match afterMarker "Suggestions: " fb with
  | some rest => some rest
  | none => afterMarker "Suggestion: " fb

/-- Modelled from the spec: the fixed built-in tip list used when no
suggestion is extracted from any feedback (five tips, the first about
taking regular breaks, as pinned by the tests). -/
def defaultTips : List String :=
  [ "Take regular breaks throughout your day"
  , "Practice deep breathing for a few minutes"
  , "Get enough sleep every night"
  , "Stay connected with friends and family"
  , "Spend some time outdoors" ]

/-- Emotion frequency counts in first-encounter order. -/
def emotionCounts (rows : List DashRow) : List (String × Nat) :=
  rows.foldl (fun acc r =>
    if acc.any (fun p => p.1 == r.emotion) then
      acc.map (fun p => if p.1 == r.emotion then (p.1, p.2 + 1) else p)
    else
      acc ++ [(r.emotion, 1)]) []

/-- Most frequent emotion; ties broken by first encounter (strict
comparison keeps the earlier entry). -/
def mostCommonEmotion (counts : List (String × Nat)) : String :=
  match counts.foldl (fun best p =>
      match best with
      | none => some p
      | some b => if b.2 < p.2 then some p else some b) none with
  | some p => p.1
  | none => "neutral"

/-- Dashboard summary response body. -/
structure SummaryResponse where
  averageStress : Rat
  emotionCounts : List (String × Nat)
  stressHistory : List (Nat × Nat)
  latestEmotion : String
  latestEmotionTime : Option Nat
  weeklyCount : Nat
  totalCount : Nat
  mostCommonEmotion : String
  tips : List String
deriving Repr, DecidableEq

/-- Modelled from the spec: `GET /summary` aggregation of the missing
`routes/dashboard.js`, given the fetched window of history rows in
descending creation order and the current epoch-millisecond time.
Mean stress ignores rows with missing values but counts them in the
total; the weekly count uses the trailing 7 days regardless of the
requested window; with no history at all the tips list is empty, and
with history but no extracted suggestion it falls back to the built-in
list. -/
def getSummary (rows : List DashRow) (now : Nat) : SummaryResponse :=
  let valid := rows.filterMap (fun r => r.stress_percent)
  { averageStress :=
      if valid.length = 0 then 0 else (valid.foldl (· + ·) 0 : Nat) / (valid.length : Rat)
    emotionCounts := emotionCounts rows
    stressHistory := rows.map (fun r => (r.created_at, r.stress_percent.getD 0))
    latestEmotion :=
      match rows.head? with
      | some r => r.emotion
      | none => "neutral"
    latestEmotionTime := rows.head?.map (fun r => r.created_at)
    weeklyCount := (rows.filter (fun r => now - 7 * 86400000 ≤ r.created_at)).length
    totalCount := rows.length
    mostCommonEmotion := mostCommonEmotion (emotionCounts rows)
    tips :=
      if rows.isEmpty then []
      else
        let extracted := (rows.filterMap (fun r => extractTip r.feedback)).take 5
        if extracted.isEmpty then defaultTips else extracted }

/-! ## History-detail route

The source files `routes/historydetail.js` and `routes/history.js` are
absent from the snapshot; only their test suites are present.  The
single-item fetch is modelled from the spec (section 4.5). -/

/-- Response of the history-detail fetch. -/
structure HistResponse where
  status : Nat
  error : Option String
  row : Option HistoryRow
deriving Repr, DecidableEq

/-- Modelled from the spec: `GET /api/history/:historyId` of the missing
`routes/history.js` / `routes/historydetail.js` — reject the literal
malformed ids "undefined"/"null", then fetch the single row scoped by
BOTH the history id and the authenticated user's id; a miss (the
store's no-rows code) is a 404, any other store error a 500. -/
def getHistoryDetail (db : List HistoryRow) (dbFails : Bool)
    (uid hid : String) : HistResponse :=
  if hid == "undefined" || hid == "null" then
    { status := 400, error := some "Invalid history ID", row := none }
  else if dbFails then
    { status := 500, error := some "Failed to fetch history item", row := none }
  else
    match db.find? (fun r => r.history_id == hid && r.user_id == uid) with
    | some r => { status := 200, error := none, row := some r }
    | none => { status := 404, error := some "History item not found", row := none }

/-! ## Feedback routes

The source file `routes/feedback.js` is absent from the snapshot; only
its test suite is present.  The handlers are modelled from the spec
(section 4.7) with the row shape and projections pinned by the tests. -/

/-- A feedback row as stored (columns inserted by the create handler:
no display-name column exists). -/
structure FeedbackRow where
  history_id : String
  user_id : String
  text : String
  feedback : String
  created_at : String
deriving Repr, DecidableEq

/-- The record shape returned by the feedback read endpoints. -/
structure FeedbackView where
  id : String
  user_name : String
  text : String
  analysisFeedback : String
  created_at : String
deriving Repr, DecidableEq

/-- Modelled from the spec: the read-side projection of the missing
`routes/feedback.js` — the display name is the constant "Anonymous" and
the stored `feedback` column is wrapped as the analysis result. -/
def feedbackToView (r : FeedbackRow) : FeedbackView :=
  { id := r.history_id
    user_name := "Anonymous"
    text := r.text
    analysisFeedback := r.feedback
    created_at := r.created_at }

/-- Modelled from the spec: `GET /feedback` of the missing
`routes/feedback.js` — list all rows (newest first, the store ordering),
each through the read projection. -/
def listFeedback (rows : List FeedbackRow) : List FeedbackView :=
  rows.map feedbackToView

/-- Request body of `POST /feedback`. -/
structure PostFeedbackBody where
  user_name : Option String
  text : Option String
  analysisFeedback : Option String
deriving Repr, DecidableEq

/-- Response of `POST /feedback`. -/
structure PostFeedbackResponse where
  status : Nat
  error : Option String
  id : Option String
  user_name : Option String
  text : Option String
deriving Repr, DecidableEq

/-- Modelled from the spec: `POST /feedback` of the missing
`routes/feedback.js` — require name and text; insert a row whose columns
(returned as the first component, an explicit column/value list) carry a
generated id, a derived `user_id`, the text, the analysis feedback or a
default message, and a timestamp — but not the supplied display name;
the created-response echoes the supplied name. -/
def postFeedback (body : PostFeedbackBody) (gid now : String)
    (insertFails : Bool) : List (String × String) × PostFeedbackResponse :=
  match body.user_name, body.text with
  | some n, some txt =>
      let cols : List (String × String) :=
        [ ("history_id", gid)
        , ("user_id", "feedback_" ++ gid)
        , ("text", txt)
        , ("feedback", body.analysisFeedback.getD "Thank you for your feedback")
        , ("created_at", now) ]
      if insertFails then
        (cols, { status := 500, error := some "Failed to create feedback",
                 id := none, user_name := none, text := none })
      else
        (cols, { status := 201, error := none, id := some gid,
                 user_name := some n, text := some txt })
  | _, _ =>
      ([], { status := 400, error := some "User name and text are required",
             id := none, user_name := none, text := none })

/-! ## Login route

The source file `routes/auth.js` is absent from the snapshot; only its
test suite is present.  Login is modelled from the spec (section 4.1). -/

/-- `helpers.js` `generateToken`: a signed token embedding user
id/name/email (the signing primitive is external; modelled as a tagged
encoding of exactly those three fields). -/
def generateToken (u : UserRow) : String :=
  "jwt$" ++ u.user_id ++ "$" ++ u.name ++ "$" ++ u.email

/-- Response of `POST /login`; the `user` object of the body is kept as
an explicit field/value list so field presence is observable. -/
structure LoginResponse where
  status : Nat
  error : Option String
  message : Option String
  userFields : List (String × String)
  token : Option String
deriving Repr, DecidableEq

/-- Modelled from the spec: `POST /login` of the missing
`routes/auth.js` — require email and password, fetch the user by email
(`none` covers both a missing user and a store error, answered with the
same generic 401), compare the password against the stored hash, and on
success respond with a user object built from exactly the id, name and
email columns plus the signed token. -/
def login (email password : Option String) (fetched : Option UserRow) : LoginResponse :=
  match email, password with
  | some _, some pw =>
      match fetched with
      | none =>
          { status := 401, error := some "Invalid email or password",
            message := none, userFields := [], token := none }
      | some u =>
          if bcompare pw u.password then
            { status := 200, error := none, message := some "Login successful",
              userFields := [("user_id", u.user_id), ("name", u.name), ("email", u.email)],
              token := some (generateToken u) }
          else
            { status := 401, error := some "Invalid email or password",
              message := none, userFields := [], token := none }
  | _, _ =>
      { status := 400, error := some "Email and password are required",
        message := none, userFields := [], token := none }

/-! ## Theorems -/

/-- C1 (counterexample): the registration password validator
(`helpers.js` `validatePassword`) accepts the concrete password
"aaaaaa", which violates the claimed strength rule (it is shorter than 8
characters and contains no digit and no symbol), so the claim that
registration enforces the ≥8/letter+digit+symbol rule is false. -/
theorem c1_counterexample_min6_accepts_weak :
    (validatePassword "aaaaaa").isValid = true ∧ strongPassword "aaaaaa" = false := by
  decide

/-- C1 (amended): the registration route validates passwords via the
shared helpers' `validatePassword`, which accepts exactly the passwords
of length at least 6 and otherwise rejects with the fixed
"at least 6 characters" message; the ≥8/letter+digit+symbol rule is not
enforced at registration. -/
theorem c1_amended_registration_password_min6 :
    ∀ p : String, (validatePassword p).isValid = decide (6 ≤ p.length) ∧
      (validatePassword p).message = "Password must be at least 6 characters long" := by
  intro p
  exact ⟨rfl, rfl⟩

/-- C2: every request to each of the three forgot-password endpoints
(request, verify, reset), whatever the outcome — success, missing field,
unknown email, invalid/expired code, weak password, reused password or
database failure — is answered with HTTP status 200; outcomes differ
only in the body. -/
theorem c2_forgot_password_always_http200 :
    ∀ (a : ForgotRequestInput) (b : ForgotVerifyInput) (c : ForgotResetInput),
      (forgotRequest a).status = 200 ∧ (forgotVerify b).status = 200 ∧
        (forgotReset c).status = 200 := by
  intro a b c
  refine ⟨?_, ?_, ?_⟩
  · rcases a with ⟨e, u, ins⟩
    cases e <;> cases u <;> cases ins <;> rfl
  · rcases b with ⟨e, cd, f⟩
    cases e <;> cases cd <;> cases f <;> rfl
  · rcases c with ⟨e, np, sh, uf⟩
    cases e <;> cases np <;> try rfl
    cases sh
    · rfl
    · dsimp [forgotReset]
      split
      · rfl
      · split
        · rfl
        · cases uf <;> rfl

/-- C3: a curhat submission with a user id whose ML call succeeds but
whose history insert fails still returns HTTP 200 carrying the full
analysis result, with no history id and with the failure reported only
through `saved_to_history = false`. -/
theorem c3_curhat_insert_failure_still_200 :
    ∀ (t uid nid : String) (d : MlData), 10 ≤ t.length →
      curhat (some t) (some uid) (.resolved 200 (some d)) true nid =
        ({ status := 200, error := none, errorType := none, upstreamStatus := none,
           result := some (applyFallbacks d), savedToHistory := some false,
           historyId := none }, true) := by
  intro t uid nid d h
  dsimp [curhat]
  rw [if_neg (by omega)]

/-- C3 witness: the theorem instantiated at a concrete 10-character text
and a concrete ML payload. -/
theorem c3_curhat_insert_failure_still_200_witness :
    10 ≤ ("abcdefghij" : String).length ∧
      curhat (some "abcdefghij") (some "user_456")
          (.resolved 200 (some ⟨some "medium", some "neutral", some 50,
            some "Analisis berhasil.", []⟩)) true "history_123" =
        ({ status := 200, error := none, errorType := none, upstreamStatus := none,
           result := some (applyFallbacks ⟨some "medium", some "neutral", some 50,
             some "Analisis berhasil.", []⟩),
           savedToHistory := some false, historyId := none }, true) :=
  ⟨by decide,
   c3_curhat_insert_failure_still_200 "abcdefghij" "user_456" "history_123" _ (by decide)⟩

/-- C4: the dashboard summary of an empty history window is exactly the
fully populated default record: averageStress 0, no emotion counts, empty
stress history, latest emotion "neutral" with no timestamp, weekly and
total counts 0, most common emotion "neutral", and an empty tip list —
never an error. -/
theorem c4_summary_empty_defaults :
    ∀ now : Nat, getSummary [] now =
      { averageStress := 0, emotionCounts := [], stressHistory := [],
        latestEmotion := "neutral", latestEmotionTime := none, weeklyCount := 0,
        totalCount := 0, mostCommonEmotion := "neutral", tips := [] } := by
  intro now
  rfl

/-- C5: an authenticated history-detail fetch is scoped by both the
history id and the requesting user's id; whenever no row matches that
pair — whether the id exists under a different owner or under no one —
the response is the identical 404 with body "History item not found",
revealing nothing about existence under another owner. -/
theorem c5_history_detail_no_existence_leak :
    ∀ (db : List HistoryRow) (uid hid : String),
      hid ≠ "undefined" → hid ≠ "null" →
      (∀ r ∈ db, r.history_id = hid → r.user_id ≠ uid) →
      getHistoryDetail db false uid hid =
        { status := 404, error := some "History item not found", row := none } := by
  intro db uid hid h1 h2 h3
  have hf : db.find? (fun r => r.history_id == hid && r.user_id == uid) = none := by
    rw [List.find?_eq_none]
    intro r hr hmatch
    rw [Bool.and_eq_true, beq_iff_eq, beq_iff_eq] at hmatch
    exact h3 r hr hmatch.1 hmatch.2
  simp [getHistoryDetail, h1, h2, hf]

/-- C5 witness: a database holding the requested id under a different
owner yields exactly the not-found 404. -/
theorem c5_history_detail_no_existence_leak_witness :
    ("h1" : String) ≠ "undefined" ∧ ("h1" : String) ≠ "null" ∧
      (∀ r ∈ [({ history_id := "h1", user_id := "other", stress_level := "low",
                 stress_percent := 10, emotion := "calm", text := "t",
                 feedback := "f", video_link := "v",
                 created_at := "2024" } : HistoryRow)],
          r.history_id = "h1" → r.user_id ≠ "me") ∧
      getHistoryDetail
          [{ history_id := "h1", user_id := "other", stress_level := "low",
             stress_percent := 10, emotion := "calm", text := "t", feedback := "f",
             video_link := "v", created_at := "2024" }] false "me" "h1" =
        { status := 404, error := some "History item not found", row := none } :=
  ⟨by decide, by decide, by decide,
   c5_history_detail_no_existence_leak _ "me" "h1" (by decide) (by decide) (by decide)⟩

/-- C6: when the profile DELETE handler finds the user but the history
delete fails, it answers 500 with error "Failed to delete history data"
and stops before the user delete, leaving the users table (in
particular the user's row) unchanged. -/
theorem c6_delete_profile_history_failure_aborts :
    ∀ (db : ProfileDb) (uid : String),
      (db.users.find? (fun u => u.user_id == uid)).isSome = true →
      db.historyDeleteFails = true →
      (deleteProfile db uid).1 =
          { status := 500, error := some "Failed to delete history data", message := none }
        ∧ (deleteProfile db uid).2 = db := by
  intro db uid hfound hfail
  cases hfind : db.users.find? (fun u => u.user_id == uid) with
  | none => rw [hfind] at hfound; simp at hfound
  | some u =>
      constructor <;> · dsimp [deleteProfile]; rw [hfind, hfail]; rfl

/-- C6 witness: a one-user database with a failing history delete gets
the 500 response and keeps its state. -/
theorem c6_delete_profile_history_failure_aborts_witness :
    ((([({ user_id := "u1", name := "n", email := "e",
           password := "p" } : UserRow)] : List UserRow).find?
        (fun u => u.user_id == "u1")).isSome = true) ∧
      (({ users := [{ user_id := "u1", name := "n", email := "e", password := "p" }],
          history := [], historyDeleteFails := true,
          userDeleteFails := false } : ProfileDb).historyDeleteFails = true) ∧
      ((deleteProfile
          { users := [{ user_id := "u1", name := "n", email := "e", password := "p" }],
            history := [], historyDeleteFails := true, userDeleteFails := false }
          "u1").1 =
        { status := 500, error := some "Failed to delete history data", message := none }
      ∧ (deleteProfile
          { users := [{ user_id := "u1", name := "n", email := "e", password := "p" }],
            history := [], historyDeleteFails := true, userDeleteFails := false }
          "u1").2 =
        { users := [{ user_id := "u1", name := "n", email := "e", password := "p" }],
          history := [], historyDeleteFails := true, userDeleteFails := false }) :=
  ⟨by decide, rfl,
   c6_delete_profile_history_failure_aborts
     { users := [{ user_id := "u1", name := "n", email := "e", password := "p" }],
       history := [], historyDeleteFails := true, userDeleteFails := false }
     "u1" (by decide) rfl⟩

/-- C7: a profile password-change request whose current password matches
the stored hash and whose new password equals the current one is
rejected with HTTP 400, whether or not the new password satisfies the
strength rule (the strength check merely selects which 400 branch
fires). -/
theorem c7_same_password_rejected_400 :
    ∀ (hash cur new : String), bcompare cur hash = true → new = cur →
      (putProfile (some hash)
          { name := none, currentPassword := some cur, newPassword := some new }).status
        = 400 := by
  intro hash cur new hcmp hne
  rw [hne]
  dsimp [putProfile]
  cases hval : (validatePasswordStrict cur).isValid <;> simp [hval, hcmp]

/-- C7 witness: changing the password "abc" to itself (current password
correct, new password too weak for the strength rule) is still a 400. -/
theorem c7_same_password_rejected_400_witness :
    bcompare "abc" (bhash "abc") = true ∧
      (putProfile (some (bhash "abc"))
          { name := none, currentPassword := some "abc",
            newPassword := some "abc" }).status = 400 :=
  ⟨by decide, c7_same_password_rejected_400 (bhash "abc") "abc" "abc" (by decide) rfl⟩

/-- C8: a curhat submission whose text is present but shorter than 10
characters is answered 400 with "Text must be at least 10 characters
long" and the ML service is never called (second component `false`);
and a submission whose ML call aborts at transport level is answered
408 with `error_type` "timeout". -/
theorem c8_curhat_short_text_and_timeout :
    (∀ (t : String) (uid : Option String) (ml : MlOutcome) (ins : Bool) (nid : String),
        t.length < 10 →
        curhat (some t) uid ml ins nid =
          ({ status := 400, error := some "Text must be at least 10 characters long",
             errorType := none, upstreamStatus := none, result := none,
             savedToHistory := none, historyId := none }, false))
    ∧ (∀ (t : String) (uid : Option String) (ins : Bool) (nid : String),
        10 ≤ t.length →
        curhat (some t) uid .timeoutErr ins nid =
          ({ status := 408, error := some "ML API request timed out. Please try again.",
             errorType := some "timeout", upstreamStatus := none, result := none,
             savedToHistory := none, historyId := none }, true)) := by
  constructor
  · intro t uid ml ins nid h
    dsimp [curhat]
    rw [if_pos h]
  · intro t uid ins nid h
    dsimp [curhat]
    rw [if_neg (by omega)]

/-- C8 witness: the six-character text "Pendek" gets the 400 with no ML
call, and a ten-character text with a transport abort gets the 408
timeout. -/
theorem c8_curhat_short_text_and_timeout_witness :
    (("Pendek" : String).length < 10 ∧
      curhat (some "Pendek") (some "user_456") .genericErr false "h1" =
        ({ status := 400, error := some "Text must be at least 10 characters long",
           errorType := none, upstreamStatus := none, result := none,
           savedToHistory := none, historyId := none }, false))
    ∧ (10 ≤ ("abcdefghij" : String).length ∧
      curhat (some "abcdefghij") none .timeoutErr false "h1" =
        ({ status := 408, error := some "ML API request timed out. Please try again.",
           errorType := some "timeout", upstreamStatus := none, result := none,
           savedToHistory := none, historyId := none }, true)) :=
  ⟨⟨by decide,
    c8_curhat_short_text_and_timeout.1 "Pendek" (some "user_456") .genericErr false "h1"
      (by decide)⟩,
   ⟨by decide,
    c8_curhat_short_text_and_timeout.2 "abcdefghij" none false "h1" (by decide)⟩⟩

/-- C9: every record produced by the feedback read endpoints carries the
constant display name "Anonymous"; the create handler's insert columns
never include a `user_name` column (the supplied name is not persisted),
while the created-response echoes the supplied name. -/
theorem c9_feedback_anonymous_readback :
    (∀ rows : List FeedbackRow,
        ((listFeedback rows).all (fun v => v.user_name == "Anonymous")) = true)
    ∧ (∀ r : FeedbackRow, (feedbackToView r).user_name = "Anonymous")
    ∧ (∀ (n txt : String) (af : Option String) (gid now : String) (fails : Bool),
        (((postFeedback { user_name := some n, text := some txt, analysisFeedback := af }
            gid now fails).1.map Prod.fst).contains "user_name") = false)
    ∧ (∀ (n txt : String) (af : Option String) (gid now : String),
        (postFeedback { user_name := some n, text := some txt, analysisFeedback := af }
            gid now false).2.user_name = some n) := by
  refine ⟨?_, ?_, ?_, ?_⟩
  · intro rows
    rw [List.all_eq_true]
    intro v hv
    rw [listFeedback, List.mem_map] at hv
    obtain ⟨r, _, rfl⟩ := hv
    rfl
  · intro r
    rfl
  · intro n txt af gid now fails
    cases fails <;> rfl
  · intro n txt af gid now
    rfl

/-- C10: a successful login responds 200 with a user object holding
exactly the `user_id`, `name` and `email` fields — in particular no
`password` field — together with the signed token. -/
theorem c10_login_response_excludes_password :
    ∀ (e pw : String) (u : UserRow), u.password = bhash pw →
      login (some e) (some pw) (some u) =
        { status := 200, error := none, message := some "Login successful",
          userFields := [("user_id", u.user_id), ("name", u.name), ("email", u.email)],
          token := some (generateToken u) }
      ∧ ((login (some e) (some pw) (some u)).userFields.map Prod.fst).contains "password"
          = false := by
  intro e pw u h
  have hc : bcompare pw u.password = true := by
    rw [h, bcompare]
    exact beq_self_eq_true _
  constructor
  · dsimp [login]
    rw [hc]
    simp
  · dsimp [login]
    rw [hc]
    simp

/-- C10 witness: a concrete user whose stored hash matches the supplied
password logs in with exactly the three-field user object. -/
theorem c10_login_response_excludes_password_witness :
    (({ user_id := "user_123", name := "John Doe", email := "john@example.com",
        password := bhash "Password123!" } : UserRow).password = bhash "Password123!") ∧
      (login (some "john@example.com") (some "Password123!")
          (some { user_id := "user_123", name := "John Doe",
                  email := "john@example.com", password := bhash "Password123!" }) =
        { status := 200, error := none, message := some "Login successful",
          userFields := [("user_id", "user_123"), ("name", "John Doe"),
                         ("email", "john@example.com")],
          token := some (generateToken
            { user_id := "user_123", name := "John Doe", email := "john@example.com",
              password := bhash "Password123!" }) }
      ∧ ((login (some "john@example.com") (some "Password123!")
            (some { user_id := "user_123", name := "John Doe",
                    email := "john@example.com",
                    password := bhash "Password123!" })).userFields.map Prod.fst).contains
            "password" = false) :=
  ⟨rfl,
   c10_login_response_excludes_password "john@example.com" "Password123!"
     { user_id := "user_123", name := "John Doe", email := "john@example.com",
       password := bhash "Password123!" } rfl⟩

end PPL
